import Mathlib

/-!
Shallow embedding of the benefits subsystem of the HR-Process repository:
the `Benefit` mongoose model (schema defaults, `calculateVR`, `calculateVT`,
`addDeduction`, `sendToFlash`, the `totalBenefitAmount` virtual) and the
route handlers for `/calculate`, `/deduction`, `/approve`, `/send-to-flash`
and `/statistics/:month/:year`.

Monetary values are embedded as `Int` (the JavaScript arithmetic involved is
addition, subtraction, multiplication and `Math.max(0, ·)` only).  Dates are
embedded as opaque `Int` timestamps: no route or model method ever inspects
a deduction date.  Statuses are the `String` literals the source uses.
-/

namespace HRProcess

/-- One entry of a `deductions` array in the benefit schema:
`{date, amount, reason, type, recordedBy, recordedAt}`. -/
structure Deduction where
  date : Int
  amount : Int
  reason : String
  type : String
  recordedBy : String
  recordedAt : Int
deriving Repr, DecidableEq

/-- The `valeRefeicao` sub-document of the benefit schema. -/
structure ValeRefeicao where
  enabled : Bool
  dailyValue : Int
  businessDays : Int
  saturdays : Int
  totalDays : Int
  totalAmount : Int
  deductions : List Deduction
  finalAmount : Int
deriving Repr, DecidableEq

/-- The `valeTransporte` sub-document of the benefit schema. -/
structure ValeTransporte where
  enabled : Bool
  fixedAmount : Int
  dailyValue : Int
  totalDays : Int
  totalAmount : Int
  deductions : List Deduction
  finalAmount : Int
deriving Repr, DecidableEq

/-- The `mobilidade` sub-document of the benefit schema. -/
structure Mobilidade where
  enabled : Bool
  monthlyValue : Int
deriving Repr, DecidableEq

/-- The `flashPayment` sub-document of the benefit schema. -/
structure FlashPayment where
  sent : Bool
  sentAt : Option Int
  sentBy : Option String
  flashReference : Option String
  flashStatus : String
deriving Repr, DecidableEq

/-- A Benefit document (one record per employee and month). -/
structure Benefit where
  id : String
  employeeId : String
  month : String
  valeRefeicao : ValeRefeicao
  valeTransporte : ValeTransporte
  mobilidade : Mobilidade
  paymentStatus : String
  flashPayment : FlashPayment
deriving Repr, DecidableEq

/-- Schema defaults of the `valeRefeicao` sub-document. -/
def defaultVR : ValeRefeicao :=
  { enabled := true, dailyValue := 0, businessDays := 22, saturdays := 0,
    totalDays := 22, totalAmount := 0, deductions := [], finalAmount := 0 }

/-- Schema defaults of the `valeTransporte` sub-document. -/
def defaultVT : ValeTransporte :=
  { enabled := true, fixedAmount := 0, dailyValue := 0, totalDays := 22,
    totalAmount := 0, deductions := [], finalAmount := 0 }

/-- Schema defaults of the `mobilidade` sub-document. -/
def defaultMobilidade : Mobilidade :=
  { enabled := false, monthlyValue := 0 }

/-- Schema defaults of the `flashPayment` sub-document. -/
def defaultFlashPayment : FlashPayment :=
  { sent := false, sentAt := none, sentBy := none, flashReference := none,
    flashStatus := "Pending" }

/-- A freshly created Benefit document with schema defaults. -/
def newBenefit (id employeeId month : String) : Benefit :=
  { id := id, employeeId := employeeId, month := month,
    valeRefeicao := defaultVR, valeTransporte := defaultVT,
    mobilidade := defaultMobilidade, paymentStatus := "Pending",
    flashPayment := defaultFlashPayment }

/-- `deductions.reduce((sum, deduction) => sum + deduction.amount, 0)`. -/
def sumDeductions (ds : List Deduction) : Int :=
  ds.foldl (fun sum deduction => sum + deduction.amount) 0

/-- `benefitSchema.virtual('totalBenefitAmount')`: VR final amount when VR
is enabled, plus VT final amount when VT is enabled, plus the mobility
monthly value when mobility is enabled. -/
def totalBenefitAmount (b : Benefit) : Int :=
  (if b.valeRefeicao.enabled then b.valeRefeicao.finalAmount else 0) +
  (if b.valeTransporte.enabled then b.valeTransporte.finalAmount else 0) +
  (if b.mobilidade.enabled then b.mobilidade.monthlyValue else 0)

/-- `benefitSchema.methods.calculateVR`: returns the mutated record and the
returned value.  Disabled → return 0 without touching the record; enabled →
store `totalDays`, `totalAmount` and the clamped `finalAmount`. -/
def calculateVR (b : Benefit) : Benefit × Int :=
  if !b.valeRefeicao.enabled then (b, 0)
  else
    let totalDays := b.valeRefeicao.businessDays + b.valeRefeicao.saturdays
    let totalAmount := totalDays * b.valeRefeicao.dailyValue
    let totalDeductions := sumDeductions b.valeRefeicao.deductions
    let finalAmount := max 0 (totalAmount - totalDeductions)
    ({ b with valeRefeicao :=
        { b.valeRefeicao with
          totalDays := totalDays
          totalAmount := totalAmount
          finalAmount := finalAmount } },
     finalAmount)

/-- `benefitSchema.methods.calculateVT`: disabled → return 0 without touching
the record; enabled → `totalAmount = fixedAmount` and clamped `finalAmount`. -/
def calculateVT (b : Benefit) : Benefit × Int :=
  if !b.valeTransporte.enabled then (b, 0)
  else
    let totalAmount := b.valeTransporte.fixedAmount
    let totalDeductions := sumDeductions b.valeTransporte.deductions
    let finalAmount := max 0 (totalAmount - totalDeductions)
    ({ b with valeTransporte :=
        { b.valeTransporte with
          totalAmount := totalAmount
          finalAmount := finalAmount } },
     finalAmount)

/-- `benefitSchema.methods.addDeduction`: push onto the VR list when
`benefitType === 'VR'`, onto the VT list when `'VT'`, otherwise onto
neither; then recalculate both VR and VT. -/
def addDeduction (b : Benefit) (benefitType : String) (deductionData : Deduction) :
    Benefit :=
  let b :=
    if benefitType == "VR" then
      { b with valeRefeicao :=
          { b.valeRefeicao with
            deductions := b.valeRefeicao.deductions ++ [deductionData] } }
    else if benefitType == "VT" then
      { b with valeTransporte :=
          { b.valeTransporte with
            deductions := b.valeTransporte.deductions ++ [deductionData] } }
    else b
  (calculateVT (calculateVR b).1).1

/-- `benefitSchema.methods.sendToFlash(userId)`: mark the flash payment as
sent (with timestamp and user) with status `Pending`, and set
`paymentStatus` to `Approved`.  No flash reference is written. -/
def sendToFlash (b : Benefit) (userId : String) (now : Int) : Benefit :=
  { b with
    flashPayment :=
      { b.flashPayment with
        sent := true
        sentAt := some now
        sentBy := some userId
        flashStatus := "Pending" }
    paymentStatus := "Approved" }

/-- Request body `valeRefeicao` of `POST /calculate`: the route merges it
into the stored sub-document with a JavaScript object spread, so any subset
of the sub-document's fields may be overridden. -/
structure VRInput where
  enabled : Option Bool := none
  dailyValue : Option Int := none
  businessDays : Option Int := none
  saturdays : Option Int := none
  totalDays : Option Int := none
  totalAmount : Option Int := none
  deductions : Option (List Deduction) := none
  finalAmount : Option Int := none
deriving Repr, DecidableEq

/-- Request body `valeTransporte` of `POST /calculate` (spread-merged). -/
structure VTInput where
  enabled : Option Bool := none
  fixedAmount : Option Int := none
  dailyValue : Option Int := none
  totalDays : Option Int := none
  totalAmount : Option Int := none
  deductions : Option (List Deduction) := none
  finalAmount : Option Int := none
deriving Repr, DecidableEq

/-- Request body `mobilidade` of `POST /calculate` (spread-merged). -/
structure MobInput where
  enabled : Option Bool := none
  monthlyValue : Option Int := none
deriving Repr, DecidableEq

/-- `benefit.valeRefeicao = { ...benefit.valeRefeicao, ...valeRefeicao }`. -/
def mergeVR (cur : ValeRefeicao) (i : VRInput) : ValeRefeicao :=
  { enabled := i.enabled.getD cur.enabled
    dailyValue := i.dailyValue.getD cur.dailyValue
    businessDays := i.businessDays.getD cur.businessDays
    saturdays := i.saturdays.getD cur.saturdays
    totalDays := i.totalDays.getD cur.totalDays
    totalAmount := i.totalAmount.getD cur.totalAmount
    deductions := i.deductions.getD cur.deductions
    finalAmount := i.finalAmount.getD cur.finalAmount }

/-- `benefit.valeTransporte = { ...benefit.valeTransporte, ...valeTransporte }`. -/
def mergeVT (cur : ValeTransporte) (i : VTInput) : ValeTransporte :=
  { enabled := i.enabled.getD cur.enabled
    fixedAmount := i.fixedAmount.getD cur.fixedAmount
    dailyValue := i.dailyValue.getD cur.dailyValue
    totalDays := i.totalDays.getD cur.totalDays
    totalAmount := i.totalAmount.getD cur.totalAmount
    deductions := i.deductions.getD cur.deductions
    finalAmount := i.finalAmount.getD cur.finalAmount }

/-- `benefit.mobilidade = { ...benefit.mobilidade, ...mobilidade }`. -/
def mergeMob (cur : Mobilidade) (i : MobInput) : Mobilidade :=
  { enabled := i.enabled.getD cur.enabled
    monthlyValue := i.monthlyValue.getD cur.monthlyValue }

/-- The update steps of `POST /calculate`: each supplied sub-document input
is spread-merged into the stored record. -/
def mergeInputs (b : Benefit) (vr : Option VRInput) (vt : Option VTInput)
    (mob : Option MobInput) : Benefit :=
  let b := match vr with
    | none => b
    | some i => { b with valeRefeicao := mergeVR b.valeRefeicao i }
  let b := match vt with
    | none => b
    | some i => { b with valeTransporte := mergeVT b.valeTransporte i }
  match mob with
    | none => b
    | some i => { b with mobilidade := mergeMob b.mobilidade i }

/-- `POST /calculate` applied to one (found or freshly created) record:
merge the supplied sub-document inputs, run `calculateVR` and `calculateVT`,
and set `paymentStatus` to `Calculated`.  The route performs no check of the
record's current `paymentStatus`. -/
def calculateRoute (b : Benefit) (vr : Option VRInput) (vt : Option VTInput)
    (mob : Option MobInput) : Benefit :=
  let b := mergeInputs b vr vt mob
  let b := (calculateVR b).1
  let b := (calculateVT b).1
  { b with paymentStatus := "Calculated" }

/-- `POST /deduction` applied to a found record: build the deduction from the
request body, call `addDeduction`, and answer with the success message.  The
route performs no validation of the deduction's amount or date. -/
def deductionRoute (b : Benefit) (benefitType : String) (d : Deduction) :
    Benefit × String :=
  (addDeduction b benefitType d, "Deduction added successfully")

/-- `POST /approve`: every record whose id occurs in `benefitIds` is set to
`Approved` (no check of its current status); the reported count is the
number of records found. -/
def approveBenefits (db : List Benefit) (benefitIds : List String) :
    List Benefit × Nat :=
  ((db.map fun b =>
      if benefitIds.contains b.id then { b with paymentStatus := "Approved" }
      else b),
   (db.filter fun b => benefitIds.contains b.id).length)

/-- The simulated provider response built by `POST /send-to-flash`. -/
structure FlashResponse where
  success : Bool
  reference : String
  totalAmount : Int
  employeeCount : Nat
  status : String
deriving Repr, DecidableEq

/-- The query of `POST /send-to-flash`: id requested, `paymentStatus`
`Approved`, and `flashPayment.sent` false. -/
def flashSelect (benefitIds : List String) (b : Benefit) : Bool :=
  benefitIds.contains b.id && b.paymentStatus == "Approved" &&
    b.flashPayment.sent == false

/-- `POST /send-to-flash`: each selected record goes through `sendToFlash`
and is saved; the response totals the selected records' `totalBenefitAmount`
and carries a fresh `FLASH-<timestamp>` reference with status `Processing`
(the reference and that status are never written to the records). -/
def sendToFlashBatch (db : List Benefit) (benefitIds : List String)
    (userId : String) (now : Int) : List Benefit × FlashResponse :=
  let benefits := db.filter (flashSelect benefitIds)
  let totalAmount :=
    benefits.foldl (fun sum b => sum + totalBenefitAmount (sendToFlash b userId now)) 0
  let db := db.map fun b =>
    if flashSelect benefitIds b then sendToFlash b userId now else b
  (db,
   { success := true
     reference := "FLASH-" ++ toString now
     totalAmount := totalAmount
     employeeCount := benefits.length
     status := "Processing" })

/-- The response of `GET /statistics/:month/:year`. -/
structure BenefitStatistics where
  totalVR : Int
  totalVT : Int
  totalMobilidade : Int
  totalAmount : Int
  employeeCount : Nat
  pendingCount : Nat
  calculatedCount : Nat
  approvedCount : Nat
  paidCount : Nat
deriving Repr, DecidableEq

/-- `GET /statistics/:month/:year`: sums and counts over the records whose
`month` equals the requested `YYYY-MM` string — with no condition on
`paymentStatus`. -/
def getStatistics (db : List Benefit) (monthStr : String) : BenefitStatistics :=
  let monthBenefits := db.filter fun b => b.month == monthStr
  { totalVR := monthBenefits.foldl (fun sum b => sum + b.valeRefeicao.finalAmount) 0
    totalVT := monthBenefits.foldl (fun sum b => sum + b.valeTransporte.finalAmount) 0
    totalMobilidade := monthBenefits.foldl (fun sum b => sum + b.mobilidade.monthlyValue) 0
    totalAmount := monthBenefits.foldl
      (fun sum b => sum + (b.valeRefeicao.finalAmount + b.valeTransporte.finalAmount +
        b.mobilidade.monthlyValue)) 0
    employeeCount := monthBenefits.length
    pendingCount := (monthBenefits.filter fun b => b.paymentStatus == "Pending").length
    calculatedCount := (monthBenefits.filter fun b => b.paymentStatus == "Calculated").length
    approvedCount := (monthBenefits.filter fun b => b.paymentStatus == "Approved").length
    paidCount := (monthBenefits.filter fun b => b.paymentStatus == "Paid").length }

/-- The per-record effect of each mutating operation of the benefits API. -/
inductive BenefitOp where
  | calculate (vr : Option VRInput) (vt : Option VTInput) (mob : Option MobInput)
  | deduct (benefitType : String) (d : Deduction)
  | approve
  | submit (userId : String) (now : Int)
deriving Repr

/-- Apply one operation to one record, as the corresponding route does. -/
def applyOp (b : Benefit) : BenefitOp → Benefit
  | BenefitOp.calculate vr vt mob => calculateRoute b vr vt mob
  | BenefitOp.deduct t d => addDeduction b t d
  | BenefitOp.approve => { b with paymentStatus := "Approved" }
  | BenefitOp.submit u now =>
      if b.paymentStatus == "Approved" && !b.flashPayment.sent then
        sendToFlash b u now
      else b

/-- Run a sequence of operations on one record. -/
def runOps (b : Benefit) (ops : List BenefitOp) : Benefit :=
  ops.foldl applyOp b

/-- An operation whose calculate inputs do not directly override a stored
`finalAmount` field through the route's object spread. -/
def keepsFinalAmount : BenefitOp → Bool
  | BenefitOp.calculate vr vt _ =>
      (match vr with | none => true | some i => i.finalAmount.isNone) &&
      (match vt with | none => true | some i => i.finalAmount.isNone)
  | _ => true

/-- The record with the given deduction appended to the VR list (the first
step of `addDeduction` when `benefitType === 'VR'`). -/
def pushVR (b : Benefit) (d : Deduction) : Benefit :=
  { b with valeRefeicao :=
      { b.valeRefeicao with deductions := b.valeRefeicao.deductions ++ [d] } }

/-- The record with the given deduction appended to the VT list (the first
step of `addDeduction` when `benefitType === 'VT'`). -/
def pushVT (b : Benefit) (d : Deduction) : Benefit :=
  { b with valeTransporte :=
      { b.valeTransporte with deductions := b.valeTransporte.deductions ++ [d] } }

/-- The stored `valeRefeicao` amounts agree with what `calculateVR` would
store (the record is a fixed point of `calculateVR`). -/
def vrConsistent (b : Benefit) : Prop :=
  b.valeRefeicao.totalDays = b.valeRefeicao.businessDays + b.valeRefeicao.saturdays ∧
  b.valeRefeicao.totalAmount = b.valeRefeicao.totalDays * b.valeRefeicao.dailyValue ∧
  b.valeRefeicao.finalAmount =
    max 0 (b.valeRefeicao.totalAmount - sumDeductions b.valeRefeicao.deductions)

/-- The stored `valeTransporte` amounts agree with what `calculateVT` would
store (the record is a fixed point of `calculateVT`). -/
def vtConsistent (b : Benefit) : Prop :=
  b.valeTransporte.totalAmount = b.valeTransporte.fixedAmount ∧
  b.valeTransporte.finalAmount =
    max 0 (b.valeTransporte.totalAmount - sumDeductions b.valeTransporte.deductions)

/-! ### Example records used in scenarios and witnesses -/

/-- A deduction with the given amount (other fields fixed). -/
def mkDed (amount : Int) : Deduction :=
  { date := 0
    amount := amount
    reason := "Absence"
    type := "Absence"
    recordedBy := "u1"
    recordedAt := 0 }

/-- VR enabled with dailyValue 25, businessDays 22, saturdays 0, no
deductions (the spec's VR scenario). -/
def exVR : Benefit :=
  { newBenefit "b1" "e1" "2025-01" with
    valeRefeicao := { defaultVR with dailyValue := 25 } }

/-- VT enabled with fixedAmount 300 and one deduction of 50 (the spec's VT
scenario). -/
def exVT : Benefit :=
  { newBenefit "b2" "e2" "2025-01" with
    valeTransporte :=
      { defaultVT with
        fixedAmount := 300
        deductions := [mkDed 50] } }

/-- A stale record: VT enabled with `fixedAmount = 300` but stored
`totalAmount = 0` (never calculated). -/
def exStaleVT : Benefit :=
  { newBenefit "st1" "e1" "2025-01" with
    valeTransporte := { defaultVT with fixedAmount := 300 } }

/-- The scenario record `exVR` after having been paid. -/
def exPaid : Benefit :=
  { exVR with paymentStatus := "Paid" }

/-- An approved record whose total benefit amount is 450. -/
def exApproved450 : Benefit :=
  { newBenefit "f1" "e1" "2025-01" with
    valeRefeicao := { defaultVR with finalAmount := 450 }
    paymentStatus := "Approved" }

/-- An approved record whose total benefit amount is 250. -/
def exApproved250 : Benefit :=
  { newBenefit "f2" "e2" "2025-01" with
    valeRefeicao := { defaultVR with finalAmount := 250 }
    paymentStatus := "Approved" }

/-- A cancelled record of month 2025-01 with stored VR final amount 100. -/
def exCancelled : Benefit :=
  { newBenefit "s1" "e3" "2025-01" with
    valeRefeicao := { defaultVR with finalAmount := 100 }
    paymentStatus := "Cancelled" }

/-- A pending record of month 2025-01 with stored VR final amount 50. -/
def exPending50 : Benefit :=
  { newBenefit "s2" "e4" "2025-01" with
    valeRefeicao := { defaultVR with finalAmount := 50 } }

/-- A month's records, one of them cancelled. -/
def exStatsDb : List Benefit :=
  [exCancelled, exPending50]

/-- A `POST /calculate` body that disables VR while spreading a negative
`finalAmount` into the stored sub-document. -/
def vrNegInput : VRInput :=
  { enabled := some false, finalAmount := some (-50) }

/-! ### Shared helper lemmas -/

theorem foldl_add_map {α : Type} (f : α → Int) (l : List α) (a : Int) :
    l.foldl (fun sum x => sum + f x) a = a + (l.map f).sum := by
  induction l generalizing a with
  | nil => simp
  | cons x xs ih => simp [ih, add_assoc]

theorem sumDeductions_eq (ds : List Deduction) :
    sumDeductions ds = (ds.map Deduction.amount).sum := by
  have h := foldl_add_map Deduction.amount ds 0
  simpa [sumDeductions] using h

theorem calculateVR_valeTransporte (b : Benefit) :
    (calculateVR b).1.valeTransporte = b.valeTransporte := by
  unfold calculateVR
  split <;> rfl

theorem calculateVR_vr_deductions (b : Benefit) :
    (calculateVR b).1.valeRefeicao.deductions = b.valeRefeicao.deductions := by
  unfold calculateVR
  split <;> rfl

theorem calculateVT_valeRefeicao (b : Benefit) :
    (calculateVT b).1.valeRefeicao = b.valeRefeicao := by
  unfold calculateVT
  split <;> rfl

theorem calculateVT_vt_deductions (b : Benefit) :
    (calculateVT b).1.valeTransporte.deductions = b.valeTransporte.deductions := by
  unfold calculateVT
  split <;> rfl

theorem calculateVR_disabled (b : Benefit) (h : b.valeRefeicao.enabled = false) :
    (calculateVR b).1 = b := by
  unfold calculateVR
  rw [if_pos (by simp [h])]

theorem calculateVT_disabled (b : Benefit) (h : b.valeTransporte.enabled = false) :
    (calculateVT b).1 = b := by
  unfold calculateVT
  rw [if_pos (by simp [h])]

theorem calculateVR_fixed_point (b : Benefit) (h : vrConsistent b) :
    (calculateVR b).1 = b := by
  unfold calculateVR
  split
  · rfl
  · show { b with valeRefeicao := { b.valeRefeicao with
        totalDays := b.valeRefeicao.businessDays + b.valeRefeicao.saturdays
        totalAmount := (b.valeRefeicao.businessDays + b.valeRefeicao.saturdays) *
          b.valeRefeicao.dailyValue
        finalAmount := max 0 ((b.valeRefeicao.businessDays + b.valeRefeicao.saturdays) *
          b.valeRefeicao.dailyValue - sumDeductions b.valeRefeicao.deductions) } } = b
    rw [← h.1, ← h.2.1, ← h.2.2]

theorem calculateVT_fixed_point (b : Benefit) (h : vtConsistent b) :
    (calculateVT b).1 = b := by
  unfold calculateVT
  split
  · rfl
  · show { b with valeTransporte := { b.valeTransporte with
        totalAmount := b.valeTransporte.fixedAmount
        finalAmount := max 0 (b.valeTransporte.fixedAmount -
          sumDeductions b.valeTransporte.deductions) } } = b
    rw [← h.1, ← h.2]

theorem addDeduction_vr_eq (b : Benefit) (d : Deduction) :
    addDeduction b "VR" d = (calculateVT (calculateVR (pushVR b d)).1).1 := rfl

theorem addDeduction_vt_eq (b : Benefit) (d : Deduction) :
    addDeduction b "VT" d = (calculateVT (calculateVR (pushVT b d)).1).1 := rfl

theorem addDeduction_other_eq (b : Benefit) (bt : String) (d : Deduction)
    (h1 : bt ≠ "VR") (h2 : bt ≠ "VT") :
    addDeduction b bt d = (calculateVT (calculateVR b).1).1 := by
  unfold addDeduction
  rw [if_neg (by simpa using h1), if_neg (by simpa using h2)]

/-! ### C1 -/

/-- C1: with VR enabled, `calculateVR` stores
`totalDays = businessDays + saturdays`,
`totalAmount = totalDays * dailyValue`,
`finalAmount = max 0 (totalAmount − Σ deductions.amount)`, and returns the
stored `finalAmount`; with VR disabled it returns 0 and leaves the record
unchanged.  In particular `dailyValue = 25`, `businessDays = 22`,
`saturdays = 0` with no deductions gives `totalAmount = 550` and
`finalAmount = 550`. -/
theorem calculateVR_spec (b : Benefit) (h : b.valeRefeicao.enabled = true) :
    ((calculateVR b).1.valeRefeicao.totalDays =
        b.valeRefeicao.businessDays + b.valeRefeicao.saturdays) ∧
    ((calculateVR b).1.valeRefeicao.totalAmount =
        (calculateVR b).1.valeRefeicao.totalDays * b.valeRefeicao.dailyValue) ∧
    ((calculateVR b).1.valeRefeicao.finalAmount =
        max 0 ((calculateVR b).1.valeRefeicao.totalAmount -
          (b.valeRefeicao.deductions.map Deduction.amount).sum)) ∧
    ((calculateVR b).2 = (calculateVR b).1.valeRefeicao.finalAmount) ∧
    (∀ b' : Benefit, b'.valeRefeicao.enabled = false → calculateVR b' = (b', 0)) ∧
    ((calculateVR exVR).1.valeRefeicao.totalAmount = 550 ∧
      (calculateVR exVR).1.valeRefeicao.finalAmount = 550 ∧
      (calculateVR exVR).2 = 550) := by
  refine ⟨?_, ?_, ?_, ?_, ?_, ?_⟩
  · simp [calculateVR, h]
  · simp [calculateVR, h]
  · simp [calculateVR, h, sumDeductions_eq]
  · simp [calculateVR, h]
  · intro b' h'
    simp [calculateVR, h']
  · refine ⟨by decide, by decide, by decide⟩

/-- Witness for C1 at the concrete scenario record. -/
theorem calculateVR_spec_witness :
    exVR.valeRefeicao.enabled = true ∧
    (calculateVR exVR).1.valeRefeicao.totalDays =
      exVR.valeRefeicao.businessDays + exVR.valeRefeicao.saturdays :=
  ⟨by decide, (calculateVR_spec exVR (by decide)).1⟩

/-! ### C7 -/

/-- C7: with VT enabled, `calculateVT` stores
`totalAmount = fixedAmount` (ignoring `totalDays` and `dailyValue`) and
`finalAmount = max 0 (totalAmount − Σ deductions.amount)`, returning the
stored `finalAmount`; with VT disabled it returns 0 and leaves the record
unchanged.  In particular `fixedAmount = 300` with one deduction of 50
gives `finalAmount = 250`. -/
theorem calculateVT_spec (b : Benefit) (h : b.valeTransporte.enabled = true) :
    ((calculateVT b).1.valeTransporte.totalAmount = b.valeTransporte.fixedAmount) ∧
    ((calculateVT b).1.valeTransporte.finalAmount =
        max 0 ((calculateVT b).1.valeTransporte.totalAmount -
          (b.valeTransporte.deductions.map Deduction.amount).sum)) ∧
    ((calculateVT b).2 = (calculateVT b).1.valeTransporte.finalAmount) ∧
    (∀ td dv : Int,
      (calculateVT { b with valeTransporte :=
          { b.valeTransporte with
            totalDays := td
            dailyValue := dv } }).2 = (calculateVT b).2) ∧
    (∀ b' : Benefit, b'.valeTransporte.enabled = false → calculateVT b' = (b', 0)) ∧
    ((calculateVT exVT).1.valeTransporte.finalAmount = 250 ∧
      (calculateVT exVT).2 = 250) := by
  refine ⟨?_, ?_, ?_, ?_, ?_, ?_⟩
  · simp [calculateVT, h]
  · simp [calculateVT, h, sumDeductions_eq]
  · simp [calculateVT, h]
  · intro td dv
    simp [calculateVT, h]
  · intro b' h'
    simp [calculateVT, h']
  · refine ⟨by decide, by decide⟩

/-- Witness for C7 at the concrete scenario record. -/
theorem calculateVT_spec_witness :
    exVT.valeTransporte.enabled = true ∧
    (calculateVT exVT).1.valeTransporte.totalAmount = exVT.valeTransporte.fixedAmount :=
  ⟨by decide, (calculateVT_spec exVT (by decide)).1⟩

/-! ### C4 -/

/-- C4 counterexample: a deduction with the non-positive amount −5 is not
rejected by `POST /deduction`: it is appended to the previously empty VR
deduction list, the stored VR amounts change, and the route answers with
the success message. -/
theorem deduction_no_validation_cex :
    (mkDed (-5)).amount ≤ 0 ∧
    exVR.valeRefeicao.deductions = [] ∧
    (deductionRoute exVR "VR" (mkDed (-5))).1.valeRefeicao.deductions = [mkDed (-5)] ∧
    (deductionRoute exVR "VR" (mkDed (-5))).1.valeRefeicao.finalAmount = 555 ∧
    (deductionRoute exVR "VR" (mkDed (-5))).2 = "Deduction added successfully" := by
  refine ⟨by decide, by decide, by decide, by decide, by decide⟩

/-- C4 amended: `POST /deduction` performs no validation at all: every
deduction — whatever its amount or date — is appended to the VR (resp. VT)
deduction list when `benefitType` is `"VR"` (resp. `"VT"`), and the route
always reports success. -/
theorem deduction_appends_unconditionally (b : Benefit) (d : Deduction) :
    ((deductionRoute b "VR" d).1.valeRefeicao.deductions =
        b.valeRefeicao.deductions ++ [d]) ∧
    ((deductionRoute b "VT" d).1.valeTransporte.deductions =
        b.valeTransporte.deductions ++ [d]) ∧
    ((deductionRoute b "VR" d).2 = "Deduction added successfully") ∧
    ((deductionRoute b "VT" d).2 = "Deduction added successfully") := by
  refine ⟨?_, ?_, rfl, rfl⟩
  · show (addDeduction b "VR" d).valeRefeicao.deductions = _
    rw [addDeduction_vr_eq, calculateVT_valeRefeicao, calculateVR_vr_deductions]
    rfl
  · show (addDeduction b "VT" d).valeTransporte.deductions = _
    rw [addDeduction_vt_eq, calculateVT_vt_deductions, calculateVR_valeTransporte]
    rfl

/-! ### C9 -/

/-- C9 counterexample: `addDeduction(record, 'VR', d)` re-runs `calculateVT`
as well, so a stale `valeTransporte` sub-document changes: its stored
`totalAmount` goes from 0 to 300. -/
theorem addDeduction_vt_not_untouched_cex :
    exStaleVT.valeTransporte.totalAmount = 0 ∧
    (addDeduction exStaleVT "VR" (mkDed 10)).valeTransporte.totalAmount = 300 ∧
    (addDeduction exStaleVT "VR" (mkDed 10)).valeTransporte ≠ exStaleVT.valeTransporte := by
  refine ⟨by decide, by decide, by decide⟩

/-- C9 amended: `addDeduction(record, 'VR', d)` appends `d` to the VR list
and re-runs BOTH calculators (not only VR); the VT deduction list is left
unchanged, and the whole `valeTransporte` sub-document is unchanged exactly
when VT is disabled or its stored amounts were already consistent with
`calculateVT`; symmetrically for `addDeduction(record, 'VT', d)`. -/
theorem addDeduction_frame (b : Benefit) (d : Deduction) :
    ((addDeduction b "VR" d).valeTransporte.deductions = b.valeTransporte.deductions) ∧
    ((addDeduction b "VT" d).valeRefeicao.deductions = b.valeRefeicao.deductions) ∧
    (b.valeTransporte.enabled = false →
      (addDeduction b "VR" d).valeTransporte = b.valeTransporte) ∧
    (vtConsistent b →
      (addDeduction b "VR" d).valeTransporte = b.valeTransporte) ∧
    (b.valeRefeicao.enabled = false →
      (addDeduction b "VT" d).valeRefeicao = b.valeRefeicao) ∧
    (vrConsistent b →
      (addDeduction b "VT" d).valeRefeicao = b.valeRefeicao) := by
  refine ⟨?_, ?_, ?_, ?_, ?_, ?_⟩
  · rw [addDeduction_vr_eq, calculateVT_vt_deductions, calculateVR_valeTransporte]
    rfl
  · rw [addDeduction_vt_eq, calculateVT_valeRefeicao, calculateVR_vr_deductions]
    rfl
  · intro h
    have h2 : ((calculateVR (pushVR b d)).1).valeTransporte.enabled = false := by
      rw [calculateVR_valeTransporte]; exact h
    rw [addDeduction_vr_eq, calculateVT_disabled _ h2, calculateVR_valeTransporte]
    rfl
  · intro h
    have hvt : ((calculateVR (pushVR b d)).1).valeTransporte = b.valeTransporte :=
      calculateVR_valeTransporte (pushVR b d)
    have hc : vtConsistent ((calculateVR (pushVR b d)).1) := by
      unfold vtConsistent
      rw [hvt]
      exact h
    rw [addDeduction_vr_eq, calculateVT_fixed_point _ hc]
    exact hvt
  · intro h
    have h2 : (pushVT b d).valeRefeicao.enabled = false := h
    rw [addDeduction_vt_eq, calculateVT_valeRefeicao, calculateVR_disabled _ h2]
    rfl
  · intro h
    have hc : vrConsistent (pushVT b d) := h
    rw [addDeduction_vt_eq, calculateVT_valeRefeicao, calculateVR_fixed_point _ hc]
    rfl

/-- Witness for C9's amended theorem: a freshly created record (schema
defaults) is consistent for both benefit types, and adding a VR deduction
leaves its `valeTransporte` sub-document unchanged. -/
theorem addDeduction_frame_witness :
    vtConsistent (newBenefit "w9" "e9" "2025-01") ∧
    (addDeduction (newBenefit "w9" "e9" "2025-01") "VR" (mkDed 10)).valeTransporte =
      (newBenefit "w9" "e9" "2025-01").valeTransporte :=
  ⟨⟨by decide, by decide⟩,
    (addDeduction_frame (newBenefit "w9" "e9" "2025-01") (mkDed 10)).2.2.2.1
      ⟨by decide, by decide⟩⟩

/-! ### C10 -/

/-- C10: with a `benefitType` other than `"VR"` and `"VT"`, `addDeduction`
appends the deduction to neither list, yet still re-runs both calculators
(the result is exactly `calculateVT ∘ calculateVR` of the unmodified
record, so stale stored amounts can change), and the route still answers
with the success message. -/
theorem addDeduction_unknown_type (b : Benefit) (bt : String) (d : Deduction)
    (h1 : bt ≠ "VR") (h2 : bt ≠ "VT") :
    (addDeduction b bt d = (calculateVT (calculateVR b).1).1) ∧
    ((addDeduction b bt d).valeRefeicao.deductions = b.valeRefeicao.deductions) ∧
    ((addDeduction b bt d).valeTransporte.deductions = b.valeTransporte.deductions) ∧
    ((deductionRoute b bt d).2 = "Deduction added successfully") := by
  have hb := addDeduction_other_eq b bt d h1 h2
  refine ⟨hb, ?_, ?_, rfl⟩
  · rw [hb, calculateVT_valeRefeicao, calculateVR_vr_deductions]
  · rw [hb, calculateVT_vt_deductions, calculateVR_valeTransporte]

/-- Witness for C10 at the concrete benefit type `"Mobilidade"`. -/
theorem addDeduction_unknown_type_witness :
    ("Mobilidade" : String) ≠ "VR" ∧
    (deductionRoute exVR "Mobilidade" (mkDed 10)).2 = "Deduction added successfully" :=
  ⟨by decide,
    (addDeduction_unknown_type exVR "Mobilidade" (mkDed 10) (by decide) (by decide)).2.2.2⟩

/-! ### C5 -/

/-- C5 counterexample: calculating a record whose `paymentStatus` is `Paid`
is not rejected: its stored VR amounts are recomputed (totalAmount goes
from 0 to 550) and its `paymentStatus` is moved back to `Calculated`. -/
theorem calculateRoute_paid_cex :
    exPaid.paymentStatus = "Paid" ∧
    exPaid.valeRefeicao.totalAmount = 0 ∧
    (calculateRoute exPaid none none none).paymentStatus = "Calculated" ∧
    (calculateRoute exPaid none none none).valeRefeicao.totalAmount = 550 := by
  refine ⟨by decide, by decide, by decide, by decide⟩

/-- C5 amended: the calculate operation never rejects a record based on its
state: for EVERY record — whatever its current `paymentStatus`, including
`Approved`, `Paid` and `Cancelled` — the stored amounts are recomputed by
`calculateVR`/`calculateVT` on the merged record and `paymentStatus` is set
to `Calculated`. -/
theorem calculateRoute_no_status_gate (b : Benefit) (vr : Option VRInput)
    (vt : Option VTInput) (mob : Option MobInput) :
    ((calculateRoute b vr vt mob).paymentStatus = "Calculated") ∧
    ((calculateRoute b vr vt mob).valeRefeicao =
        (calculateVT (calculateVR (mergeInputs b vr vt mob)).1).1.valeRefeicao) ∧
    ((calculateRoute b vr vt mob).valeTransporte =
        (calculateVT (calculateVR (mergeInputs b vr vt mob)).1).1.valeTransporte) ∧
    (exPaid.paymentStatus = "Paid" ∧
      (calculateRoute exPaid none none none).paymentStatus = "Calculated" ∧
      (calculateRoute exPaid none none none).valeRefeicao.finalAmount = 550) := by
  refine ⟨rfl, rfl, rfl, by decide, by decide, by decide⟩

/-! ### C3 -/

/-- C3 counterexample: bulk-approving one id whose record is in state
`Paid` (not `Calculated`) still transitions it to `Approved` and reports it
in the approved count instead of skipping it. -/
theorem approve_non_calculated_cex :
    exPaid.paymentStatus = "Paid" ∧
    (approveBenefits [exPaid] ["b1"]).1 =
      [{ exPaid with paymentStatus := "Approved" }] ∧
    (approveBenefits [exPaid] ["b1"]).2 = 1 := by
  refine ⟨by decide, by decide, by decide⟩

/-- C3 amended: the bulk approve operation transitions EVERY requested
record that exists to `Approved`, regardless of its current status; the
reported count is the number of requested records found (not the number
that were in `Calculated`); records whose id is not requested are left
unchanged, and unknown ids never make the batch fail (the operation is
total). -/
theorem approveBenefits_spec (db : List Benefit) (ids : List String) :
    ((approveBenefits db ids).2 =
        (db.filter fun b => ids.contains b.id).length) ∧
    ((approveBenefits db ids).1.length = db.length) ∧
    (∀ i : Nat, (approveBenefits db ids).1[i]? = (db[i]?.map fun b =>
        if ids.contains b.id then { b with paymentStatus := "Approved" } else b)) ∧
    (∀ b ∈ db, ids.contains b.id = true →
        { b with paymentStatus := "Approved" } ∈ (approveBenefits db ids).1) ∧
    (∀ b ∈ db, ids.contains b.id = false → b ∈ (approveBenefits db ids).1) := by
  refine ⟨rfl, ?_, ?_, ?_, ?_⟩
  · exact List.length_map db _
  · intro i
    exact List.getElem?_map _ db i
  · intro b hb h
    have hmem : b.id ∈ ids := by simpa using h
    have hm := List.mem_map_of_mem
      (fun x => if ids.contains x.id then { x with paymentStatus := "Approved" } else x) hb
    simpa [approveBenefits, hmem] using hm
  · intro b hb h
    have hmem : ¬ b.id ∈ ids := by simpa using h
    have hm := List.mem_map_of_mem
      (fun x => if ids.contains x.id then { x with paymentStatus := "Approved" } else x) hb
    simpa [approveBenefits, hmem] using hm

/-- Witness for C3's amended theorem: the `Paid` record of the
counterexample is transitioned to `Approved` when requested. -/
theorem approveBenefits_spec_witness :
    exPaid ∈ [exPaid] ∧ (["b1"].contains exPaid.id) = true ∧
    { exPaid with paymentStatus := "Approved" } ∈ (approveBenefits [exPaid] ["b1"]).1 :=
  ⟨List.mem_singleton.mpr rfl, by decide,
    (approveBenefits_spec [exPaid] ["b1"]).2.2.2.1 exPaid
      (List.mem_singleton.mpr rfl) (by decide)⟩

/-! ### C2 -/

theorem totalBenefitAmount_sendToFlash (b : Benefit) (u : String) (now : Int) :
    totalBenefitAmount (sendToFlash b u now) = totalBenefitAmount b := rfl

/-- C2 counterexample: after a batch submission the submitted record's
stored flash status is `Pending`, not `Processing`, and no provider
reference at all is written to the record (the `Processing` status and the
`FLASH-` reference only appear in the simulated provider response). -/
theorem sendToFlash_record_fields_cex :
    ((sendToFlashBatch [exApproved450] ["f1"] "u1" 99).1.map
        fun b => b.flashPayment.flashStatus) = ["Pending"] ∧
    ((sendToFlashBatch [exApproved450] ["f1"] "u1" 99).1.map
        fun b => b.flashPayment.flashReference) = [none] ∧
    (sendToFlashBatch [exApproved450] ["f1"] "u1" 99).2.status = "Processing" ∧
    (sendToFlashBatch [exApproved450] ["f1"] "u1" 99).2.reference = "FLASH-99" := by
  refine ⟨by decide, by decide, by decide, rfl⟩

/-- C2 amended: the bulk submission mutates exactly the requested records
with `paymentStatus = Approved` and `flashPayment.sent = false`: each gets
`sent = true`, `sentAt`/`sentBy` recorded and flash status `Pending`; no
provider reference is stored on any record (the shared `FLASH-` reference
and the `Processing` status exist only in the response); the response's
total equals the sum of the selected records' `totalBenefitAmount` (450 and
250 give 700 with employeeCount 2) and the stored amounts are unchanged. -/
theorem sendToFlashBatch_spec (db : List Benefit) (ids : List String)
    (u : String) (now : Int) :
    ((sendToFlashBatch db ids u now).2.totalAmount =
        ((db.filter (flashSelect ids)).map totalBenefitAmount).sum) ∧
    ((sendToFlashBatch db ids u now).2.employeeCount =
        (db.filter (flashSelect ids)).length) ∧
    ((sendToFlashBatch db ids u now).2.status = "Processing") ∧
    ((sendToFlashBatch db ids u now).2.reference = "FLASH-" ++ toString now) ∧
    (∀ i : Nat, (sendToFlashBatch db ids u now).1[i]? = (db[i]?.map fun b =>
        if flashSelect ids b then sendToFlash b u now else b)) ∧
    (∀ b : Benefit,
        (sendToFlash b u now).flashPayment.sent = true ∧
        (sendToFlash b u now).flashPayment.sentAt = some now ∧
        (sendToFlash b u now).flashPayment.sentBy = some u ∧
        (sendToFlash b u now).flashPayment.flashStatus = "Pending" ∧
        (sendToFlash b u now).flashPayment.flashReference = b.flashPayment.flashReference ∧
        (sendToFlash b u now).valeRefeicao = b.valeRefeicao ∧
        (sendToFlash b u now).valeTransporte = b.valeTransporte ∧
        (sendToFlash b u now).mobilidade = b.mobilidade ∧
        (sendToFlash b u now).paymentStatus = "Approved") ∧
    ((sendToFlashBatch [exApproved450, exApproved250] ["f1", "f2"] "u1" 99).2.totalAmount
        = 700 ∧
      (sendToFlashBatch [exApproved450, exApproved250] ["f1", "f2"] "u1" 99).2.employeeCount
        = 2) := by
  refine ⟨?_, rfl, rfl, rfl, ?_, ?_, by decide, by decide⟩
  · show (db.filter (flashSelect ids)).foldl
        (fun sum b => sum + totalBenefitAmount (sendToFlash b u now)) 0 = _
    rw [foldl_add_map (fun b => totalBenefitAmount (sendToFlash b u now))]
    simp [totalBenefitAmount_sendToFlash]
  · intro i
    exact List.getElem?_map _ db i
  · intro b
    exact ⟨rfl, rfl, rfl, rfl, rfl, rfl, rfl, rfl, rfl⟩

/-! ### C8 -/

/-- C8 counterexample: `getStatistics` does not exclude cancelled records:
with one cancelled record (VR final amount 100) and one pending record (VR
final amount 50) in the month, the reported `totalVR` is 150, whereas the
sum over the non-cancelled records of the month is 50. -/
theorem statistics_include_cancelled_cex :
    exCancelled.paymentStatus = "Cancelled" ∧
    (getStatistics exStatsDb "2025-01").totalVR = 150 ∧
    (((exStatsDb.filter fun b =>
          b.month == "2025-01" && !(b.paymentStatus == "Cancelled")).map
        fun b => b.valeRefeicao.finalAmount).sum = 50) := by
  refine ⟨by decide, by decide, by decide⟩

/-- C8 amended: `getStatistics` is a pure function of the stored records
and aggregates ALL records of the requested month, the cancelled ones
included: `totalVR`, `totalVT` and `totalMobilidade` are the sums of the
stored `finalAmount`/`monthlyValue` fields over every record of the month,
the grand total per record adds the three stored fields without consulting
the `enabled` flags, and the four reported counts are the numbers of
`Pending`/`Calculated`/`Approved`/`Paid` records of the month (cancelled
records are counted in none of the four but do feed the totals).  No
amount is recomputed. -/
theorem getStatistics_spec (db : List Benefit) (m : String) :
    ((getStatistics db m).totalVR =
        ((db.filter fun b => b.month == m).map fun b => b.valeRefeicao.finalAmount).sum) ∧
    ((getStatistics db m).totalVT =
        ((db.filter fun b => b.month == m).map fun b => b.valeTransporte.finalAmount).sum) ∧
    ((getStatistics db m).totalMobilidade =
        ((db.filter fun b => b.month == m).map fun b => b.mobilidade.monthlyValue).sum) ∧
    ((getStatistics db m).totalAmount =
        ((db.filter fun b => b.month == m).map fun b =>
          b.valeRefeicao.finalAmount + b.valeTransporte.finalAmount +
            b.mobilidade.monthlyValue).sum) ∧
    ((getStatistics db m).employeeCount = (db.filter fun b => b.month == m).length) ∧
    ((getStatistics db m).pendingCount =
        ((db.filter fun b => b.month == m).filter
          fun b => b.paymentStatus == "Pending").length) ∧
    ((getStatistics db m).calculatedCount =
        ((db.filter fun b => b.month == m).filter
          fun b => b.paymentStatus == "Calculated").length) ∧
    ((getStatistics db m).approvedCount =
        ((db.filter fun b => b.month == m).filter
          fun b => b.paymentStatus == "Approved").length) ∧
    ((getStatistics db m).paidCount =
        ((db.filter fun b => b.month == m).filter
          fun b => b.paymentStatus == "Paid").length) ∧
    ((getStatistics exStatsDb "2025-01").totalVR = 150) := by
  refine ⟨?_, ?_, ?_, ?_, rfl, rfl, rfl, rfl, rfl, by decide⟩
  · show (db.filter fun b => b.month == m).foldl
        (fun sum b => sum + b.valeRefeicao.finalAmount) 0 = _
    rw [foldl_add_map (fun b : Benefit => b.valeRefeicao.finalAmount)]
    simp
  · show (db.filter fun b => b.month == m).foldl
        (fun sum b => sum + b.valeTransporte.finalAmount) 0 = _
    rw [foldl_add_map (fun b : Benefit => b.valeTransporte.finalAmount)]
    simp
  · show (db.filter fun b => b.month == m).foldl
        (fun sum b => sum + b.mobilidade.monthlyValue) 0 = _
    rw [foldl_add_map (fun b : Benefit => b.mobilidade.monthlyValue)]
    simp
  · show (db.filter fun b => b.month == m).foldl
        (fun sum b => sum + (b.valeRefeicao.finalAmount + b.valeTransporte.finalAmount +
          b.mobilidade.monthlyValue)) 0 = _
    rw [foldl_add_map (fun b : Benefit => b.valeRefeicao.finalAmount +
      b.valeTransporte.finalAmount + b.mobilidade.monthlyValue)]
    simp

/-! ### C6 -/

/-- C6 counterexample: a single calculate call whose request body disables
VR while spreading `finalAmount = -50` into the sub-document leaves a
stored negative `finalAmount` (the disabled branch of `calculateVR` never
recomputes it). -/
theorem finalAmount_negative_cex :
    (runOps (newBenefit "n1" "e5" "2025-01")
        [BenefitOp.calculate (some vrNegInput) none none]).valeRefeicao.finalAmount
      = -50 ∧
    ¬ (0 ≤ (runOps (newBenefit "n1" "e5" "2025-01")
        [BenefitOp.calculate (some vrNegInput) none none]).valeRefeicao.finalAmount) := by
  refine ⟨by decide, by decide⟩

theorem calculateVR_finalAmount_nonneg (b : Benefit)
    (h : 0 ≤ b.valeRefeicao.finalAmount) :
    0 ≤ (calculateVR b).1.valeRefeicao.finalAmount := by
  unfold calculateVR
  split
  · exact h
  · exact le_max_left 0 _

theorem calculateVT_finalAmount_nonneg (b : Benefit)
    (h : 0 ≤ b.valeTransporte.finalAmount) :
    0 ≤ (calculateVT b).1.valeTransporte.finalAmount := by
  unfold calculateVT
  split
  · exact h
  · exact le_max_left 0 _

theorem recalc_nonneg (b : Benefit) (h1 : 0 ≤ b.valeRefeicao.finalAmount)
    (h2 : 0 ≤ b.valeTransporte.finalAmount) :
    0 ≤ (calculateVT (calculateVR b).1).1.valeRefeicao.finalAmount ∧
    0 ≤ (calculateVT (calculateVR b).1).1.valeTransporte.finalAmount := by
  constructor
  · rw [calculateVT_valeRefeicao]
    exact calculateVR_finalAmount_nonneg b h1
  · apply calculateVT_finalAmount_nonneg
    rw [calculateVR_valeTransporte]
    exact h2

theorem mergeInputs_finalAmounts (b : Benefit) (vr : Option VRInput)
    (vt : Option VTInput) (mob : Option MobInput)
    (hv : (match vr with | none => true | some i => i.finalAmount.isNone) = true)
    (ht : (match vt with | none => true | some i => i.finalAmount.isNone) = true) :
    (mergeInputs b vr vt mob).valeRefeicao.finalAmount = b.valeRefeicao.finalAmount ∧
    (mergeInputs b vr vt mob).valeTransporte.finalAmount = b.valeTransporte.finalAmount := by
  cases vr with
  | none =>
    cases vt with
    | none => cases mob <;> exact ⟨rfl, rfl⟩
    | some j =>
      have hj : j.finalAmount = none := Option.isNone_iff_eq_none.mp ht
      cases mob <;> exact ⟨rfl, by simp [mergeInputs, mergeVT, hj]⟩
  | some i =>
    have hi : i.finalAmount = none := Option.isNone_iff_eq_none.mp hv
    cases vt with
    | none =>
      cases mob <;> exact ⟨by simp [mergeInputs, mergeVR, hi], rfl⟩
    | some j =>
      have hj : j.finalAmount = none := Option.isNone_iff_eq_none.mp ht
      cases mob <;>
        exact ⟨by simp [mergeInputs, mergeVR, hi], by simp [mergeInputs, mergeVT, hj]⟩

theorem applyOp_nonneg (b : Benefit) (op : BenefitOp)
    (hop : keepsFinalAmount op = true)
    (h1 : 0 ≤ b.valeRefeicao.finalAmount) (h2 : 0 ≤ b.valeTransporte.finalAmount) :
    0 ≤ (applyOp b op).valeRefeicao.finalAmount ∧
    0 ≤ (applyOp b op).valeTransporte.finalAmount := by
  cases op with
  | calculate vr vt mob =>
    simp only [keepsFinalAmount, Bool.and_eq_true] at hop
    obtain ⟨e1, e2⟩ := mergeInputs_finalAmounts b vr vt mob hop.1 hop.2
    exact recalc_nonneg (mergeInputs b vr vt mob)
      (by rw [e1]; exact h1) (by rw [e2]; exact h2)
  | deduct t d =>
    by_cases hVR : t = "VR"
    · subst hVR
      have h := recalc_nonneg (pushVR b d) h1 h2
      simpa [applyOp, addDeduction_vr_eq] using h
    · by_cases hVT : t = "VT"
      · subst hVT
        have h := recalc_nonneg (pushVT b d) h1 h2
        simpa [applyOp, addDeduction_vt_eq] using h
      · have h := recalc_nonneg b h1 h2
        simpa [applyOp, addDeduction_other_eq b t d hVR hVT] using h
  | approve => exact ⟨h1, h2⟩
  | submit u now =>
    simp only [applyOp]
    split
    · exact ⟨h1, h2⟩
    · exact ⟨h1, h2⟩

theorem runOps_nonneg (ops : List BenefitOp) : ∀ b : Benefit,
    0 ≤ b.valeRefeicao.finalAmount → 0 ≤ b.valeTransporte.finalAmount →
    (∀ op ∈ ops, keepsFinalAmount op = true) →
    0 ≤ (runOps b ops).valeRefeicao.finalAmount ∧
    0 ≤ (runOps b ops).valeTransporte.finalAmount := by
  induction ops with
  | nil =>
    intro b h1 h2 _
    exact ⟨h1, h2⟩
  | cons op rest ih =>
    intro b h1 h2 hops
    have hop := hops op (List.mem_cons_self _ _)
    have step := applyOp_nonneg b op hop h1 h2
    exact ih (applyOp b op) step.1 step.2
      (fun o ho => hops o (List.mem_cons_of_mem _ ho))

/-- C6 amended: starting from non-negative stored final amounts, every
sequence of operations (calculation, deduction append, approval,
submission) keeps both stored `finalAmount`s ≥ 0 — PROVIDED no calculate
request body spreads a `finalAmount` override into a sub-document; the
calculators themselves clamp at 0: totalAmount 550 with deductions 100
then 500 yields finalAmount 450 then 0, not −50. -/
theorem finalAmount_nonneg (b : Benefit) (ops : List BenefitOp)
    (h1 : 0 ≤ b.valeRefeicao.finalAmount) (h2 : 0 ≤ b.valeTransporte.finalAmount)
    (hops : ∀ op ∈ ops, keepsFinalAmount op = true) :
    (0 ≤ (runOps b ops).valeRefeicao.finalAmount ∧
      0 ≤ (runOps b ops).valeTransporte.finalAmount) ∧
    ((runOps exVR [BenefitOp.calculate none none none,
        BenefitOp.deduct "VR" (mkDed 100)]).valeRefeicao.finalAmount = 450 ∧
      (runOps exVR [BenefitOp.calculate none none none,
        BenefitOp.deduct "VR" (mkDed 100),
        BenefitOp.deduct "VR" (mkDed 500)]).valeRefeicao.finalAmount = 0) := by
  exact ⟨runOps_nonneg ops b h1 h2 hops, by decide, by decide⟩

/-- Witness for C6's amended theorem at a concrete record and operation
sequence. -/
theorem finalAmount_nonneg_witness :
    0 ≤ exVR.valeRefeicao.finalAmount ∧
    0 ≤ (runOps exVR [BenefitOp.calculate none none none,
        BenefitOp.deduct "VR" (mkDed 100)]).valeRefeicao.finalAmount :=
  ⟨by decide,
    (finalAmount_nonneg exVR
      [BenefitOp.calculate none none none, BenefitOp.deduct "VR" (mkDed 100)]
      (by decide) (by decide) (by decide)).1.1⟩

end HRProcess
